import Mathlib

/-!
Shallow embedding of the Exonum configuration-service API layer
(`services/configuration/src/config_api.rs`).

The API layer reads schema state through storage snapshots obtained from
`Blockchain::snapshot()`.  Each call to `snapshot()` may in principle observe
a different storage state (the node keeps committing blocks while the API
serves requests), so a `Blockchain` is modelled as a call-indexed stream of
snapshots: the `n`-th call to `snapshot()` returns `bc n`.  Every API function
threads the call counter explicitly.

Panics (`expect`, `unwrap`) are modelled by an `Option` result: `none` means
the Rust code panics.
-/

/-- Fixed-width content digest (`exonum::crypto::Hash`), modelled as `Nat`. -/
abbrev Hash := Nat

/-- Block height (`exonum::helpers::Height`), a `u64` wrapper, modelled as `Nat`. -/
abbrev Height := Nat

/-- Ed25519 public key, opaque. -/
abbrev PublicKey := Nat

/-- Ed25519 secret key, opaque. -/
abbrev SecretKey := Nat

/-- The versioned configuration object under governance
(`exonum::blockchain::StoredConfiguration`).  Only `previous_cfg_hash` and
`actual_from` are inspected by the API layer; the validator set, consensus
and service parameters are folded into the opaque `payload`. -/
structure StoredConfiguration where
  previous_cfg_hash : Hash
  actual_from : Height
  payload : Nat
  deriving DecidableEq

/-- One field of the canonical serialization: eight little-endian base-256
bytes (a `u64`-style fixed-width encoding). -/
def encField (n : Nat) : List Nat :=
  [n % 256, n / 256 % 256, n / 256 ^ 2 % 256, n / 256 ^ 3 % 256,
   n / 256 ^ 4 % 256, n / 256 ^ 5 % 256, n / 256 ^ 6 % 256, n / 256 ^ 7 % 256]

/-- Modelled from the spec: the canonical serialization of a configuration
(`StorageValue::into_bytes` for `StoredConfiguration`, which lives outside
this crate).  The spec fixes only that it is a deterministic byte encoding of
the configuration's content; we encode the three fields in order. -/
def StoredConfiguration.into_bytes (c : StoredConfiguration) : List Nat :=
  encField c.previous_cfg_hash ++ encField c.actual_from ++ encField c.payload

/-- Reads one eight-byte field back, returning the value and the rest. -/
def readField : List Nat → Nat × List Nat
  | b0 :: b1 :: b2 :: b3 :: b4 :: b5 :: b6 :: b7 :: rest =>
    (b0 + 256 * b1 + 256 ^ 2 * b2 + 256 ^ 3 * b3 + 256 ^ 4 * b4 + 256 ^ 5 * b5 +
      256 ^ 6 * b6 + 256 ^ 7 * b7, rest)
  | _ => (0, [])

/-- Modelled from the spec: canonical decoding of a configuration
(`StorageValue::from_bytes`), inverse of `StoredConfiguration.into_bytes` on
well-formed input. -/
def StoredConfiguration.from_bytes (bytes : List Nat) : StoredConfiguration :=
  let r1 := readField bytes
  let r2 := readField r1.2
  let r3 := readField r2.2
  ⟨r1.1, r2.1, r3.1⟩

/-- Modelled from the spec: the opaque content-addressing digest
`hash(bytes)` of the signing/hashing collaborator. -/
def hashBytes (bytes : List Nat) : Hash :=
  bytes.foldl (fun acc b => acc * 257 + (b + 1)) 1

/-- Content hash of a configuration (`CryptoHash for StoredConfiguration`):
the digest of its canonical serialization, per the spec's content-addressing
invariant. -/
def StoredConfiguration.hash (c : StoredConfiguration) : Hash :=
  hashBytes c.into_bytes

/-- Is `b` a UTF-8 continuation byte (`0x80..=0xBF`)? -/
def isCont (b : Nat) : Bool :=
  0x80 ≤ b && b ≤ 0xBF

/-- RFC 3629 UTF-8 validity of a byte sequence, as enforced by Rust's
`str::from_utf8` (rejects overlong forms and surrogate code points). -/
def utf8Validate : List Nat → Bool
  | [] => true
  | b :: rest =>
    if b ≤ 0x7F then utf8Validate rest
    else if 0xC2 ≤ b && b ≤ 0xDF then
      match rest with
      | b1 :: rest2 => isCont b1 && utf8Validate rest2
      | [] => false
    else if b = 0xE0 then
      match rest with
      | b1 :: b2 :: rest2 => (0xA0 ≤ b1 && b1 ≤ 0xBF) && isCont b2 && utf8Validate rest2
      | _ => false
    else if (0xE1 ≤ b && b ≤ 0xEC) || b = 0xEE || b = 0xEF then
      match rest with
      | b1 :: b2 :: rest2 => isCont b1 && isCont b2 && utf8Validate rest2
      | _ => false
    else if b = 0xED then
      match rest with
      | b1 :: b2 :: rest2 => (0x80 ≤ b1 && b1 ≤ 0x9F) && isCont b2 && utf8Validate rest2
      | _ => false
    else if b = 0xF0 then
      match rest with
      | b1 :: b2 :: b3 :: rest2 =>
          (0x90 ≤ b1 && b1 ≤ 0xBF) && isCont b2 && isCont b3 && utf8Validate rest2
      | _ => false
    else if 0xF1 ≤ b && b ≤ 0xF3 then
      match rest with
      | b1 :: b2 :: b3 :: rest2 => isCont b1 && isCont b2 && isCont b3 && utf8Validate rest2
      | _ => false
    else if b = 0xF4 then
      match rest with
      | b1 :: b2 :: b3 :: rest2 =>
          (0x80 ≤ b1 && b1 ≤ 0x8F) && isCont b2 && isCont b3 && utf8Validate rest2
      | _ => false
    else false

/-- `std::str::from_utf8`: succeeds exactly on valid UTF-8, returning the
same bytes viewed as a `&str`. -/
def str_from_utf8 (bytes : List Nat) : Option (List Nat) :=
  if utf8Validate bytes then some bytes else none

/-- Propose transaction (`TxConfigPropose`): proposer key and the
configuration's canonical serialization carried as a string (byte list). -/
structure TxConfigPropose where
  from_key : PublicKey
  cfg : List Nat
  deriving DecidableEq

/-- Digest of a propose transaction's serialization. -/
def TxConfigPropose.hash (t : TxConfigPropose) : Hash :=
  hashBytes (0 :: t.from_key :: t.cfg)

/-- Vote transaction (`TxConfigVote`): voter key and target configuration
hash. -/
structure TxConfigVote where
  from_key : PublicKey
  cfg_hash : Hash
  deriving DecidableEq

/-- Digest of a vote transaction's serialization. -/
def TxConfigVote.hash (t : TxConfigVote) : Hash :=
  hashBytes [1, t.from_key, t.cfg_hash]

/-- A boxed transaction handed to the dispatch channel. -/
inductive ConfigTx where
  | propose (t : TxConfigPropose)
  | vote (t : TxConfigVote)
  deriving DecidableEq

/-- Propose-ledger entry (`StorageValueConfigProposeData`): the propose
transaction plus vote-history metadata. -/
structure StorageValueConfigProposeData where
  tx_propose : TxConfigPropose
  votes_history_hash : Hash
  num_validators : Nat
  deriving DecidableEq

/-- Entry of the activation-height index (`ConfigReference`). -/
structure ConfigReference where
  actual_from : Height
  cfg_hash : Hash
  deriving DecidableEq

/-- Structured API error (`exonum::api::ApiError`); payloads are opaque. -/
inductive ApiError where
  | FromHex
  | IncorrectRequest
  | TransactionNotSent
  deriving DecidableEq

/-- The configuration service's own schema tables, as read through one
snapshot (`ConfigurationSchema`).  Modelled from the spec's persisted layout:
a by-hash propose table, the per-proposal vote-slot arrays, and the
insertion-ordinal index of proposed configuration hashes. -/
structure ConfigurationSchemaS where
  propose_data_by_config_hash : Hash → Option StorageValueConfigProposeData
  votes : Hash → List (Option TxConfigVote)
  config_hash_by_ordinal : List Hash

/-- Modelled from the spec: `ConfigurationSchema::get_propose`, the Propose
Ledger's `get(config_hash) -> Option<Proposal>`, returning the stored propose
transaction for a configuration hash. -/
def ConfigurationSchemaS.get_propose (s : ConfigurationSchemaS) (cfg_hash : Hash) :
    Option TxConfigPropose :=
  (s.propose_data_by_config_hash cfg_hash).map (fun pd => pd.tx_propose)

/-- Modelled from the spec: `ConfigurationSchema::get_votes`, the Vote
Ledger's `tally(config_hash)`, exposing the full per-validator slot array
(empty slots included). -/
def ConfigurationSchemaS.get_votes (s : ConfigurationSchemaS) (cfg_hash : Hash) :
    List (Option TxConfigVote) :=
  s.votes cfg_hash

/-- The core blockchain schema tables, as read through one snapshot
(`exonum::blockchain::Schema`).  Modelled from the spec: the by-hash config
table, the activation-height index, and the Activation Resolver's results
`activeAt` / `nextAfter` at the snapshot's current height. -/
structure SchemaS where
  configs : Hash → Option StoredConfiguration
  configs_actual_from : List ConfigReference
  actual_configuration : StoredConfiguration
  following_configuration : Option StoredConfiguration

/-- One storage snapshot: both schemas' views of the same point-in-time
state. -/
structure Snapshot where
  cfgSchema : ConfigurationSchemaS
  genSchema : SchemaS

/-- A blockchain handle, as a call-indexed stream of snapshots: the `n`-th
call to `Blockchain::snapshot()` observes `bc n`. -/
def Blockchain := Nat → Snapshot

/-- `ApiResponseVotesInfo = Option<Vec<Option<TxConfigVote>>>`. -/
abbrev ApiResponseVotesInfo := Option (List (Option TxConfigVote))

/-- Response record for a configuration with its proof trail. -/
structure ApiResponseConfigHashInfo where
  hash : Hash
  config : StoredConfiguration
  propose : Option Hash
  votes : ApiResponseVotesInfo
  deriving DecidableEq

/-- Response record for one proposal listing entry. -/
structure ApiResponseProposeHashInfo where
  hash : Hash
  propose_data : StorageValueConfigProposeData
  deriving DecidableEq

/-- Response record for a configuration looked up by hash. -/
structure ApiResponseConfigInfo where
  committed_config : Option StoredConfiguration
  propose : Option StorageValueConfigProposeData
  deriving DecidableEq

/-- Response record for a successful propose submission. -/
structure ApiResponseProposePost where
  tx_hash : Hash
  cfg_hash : Hash
  deriving DecidableEq

/-- Response record for a successful vote submission. -/
structure ApiResponseVotePost where
  tx_hash : Hash
  deriving DecidableEq

/-- `PublicConfigApi::get_votes_for_propose`: takes one snapshot and returns
the full vote-slot array when a propose entry exists for the hash, `none`
otherwise.  Returns the result with the advanced snapshot counter. -/
def get_votes_for_propose (bc : Blockchain) (n : Nat) (config_hash : Hash) :
    ApiResponseVotesInfo × Nat :=
  let configuration_schema := (bc n).cfgSchema
  (((configuration_schema.propose_data_by_config_hash config_hash).map
      (fun _ => configuration_schema.get_votes config_hash)), n + 1)

/-- `PublicConfigApi::get_config_with_proofs`: takes one snapshot for the
propose lookup, then calls `get_votes_for_propose`, which takes another. -/
def get_config_with_proofs (bc : Blockchain) (n : Nat) (config : StoredConfiguration) :
    ApiResponseConfigHashInfo × Nat :=
  let propose := (((bc n).cfgSchema.get_propose config.hash).map TxConfigPropose.hash)
  let vres := get_votes_for_propose bc (n + 1) config.hash
  (⟨config.hash, config, propose, vres.1⟩, vres.2)

/-- `PublicConfigApi::get_actual_config`: takes a snapshot to read the active
configuration, then delegates to `get_config_with_proofs` (which takes two
more snapshots). -/
def get_actual_config (bc : Blockchain) (n : Nat) : ApiResponseConfigHashInfo × Nat :=
  let actual_cfg := (bc n).genSchema.actual_configuration
  get_config_with_proofs bc (n + 1) actual_cfg

/-- `PublicConfigApi::get_following_config`: reads the resolver's following
configuration from one snapshot and, when present, builds its proof trail via
`get_config_with_proofs`. -/
def get_following_config (bc : Blockchain) (n : Nat) :
    Option ApiResponseConfigHashInfo × Nat :=
  match (bc n).genSchema.following_configuration with
  | some following_cfg =>
    let r := get_config_with_proofs bc (n + 1) following_cfg
    (some r.1, r.2)
  | none => (none, n + 1)

/-- `PublicConfigApi::get_config_by_hash`: one snapshot, two independent
lookups (committed config table, propose table). -/
def get_config_by_hash (bc : Blockchain) (n : Nat) (hash : Hash) :
    ApiResponseConfigInfo × Nat :=
  let snapshot := bc n
  (⟨snapshot.genSchema.configs hash,
    snapshot.cfgSchema.propose_data_by_config_hash hash⟩, n + 1)

/-- `PublicConfigApi::filter_cfg_predicate`: conjunctive filter with early
`false` returns, omitted filters pass. -/
def filter_cfg_predicate (cfg : StoredConfiguration)
    (previous_cfg_hash_filter : Option Hash) (actual_from_filter : Option Height) : Bool :=
  if (match previous_cfg_hash_filter with
      | some prev_ref => cfg.previous_cfg_hash != prev_ref
      | none => false) then false
  else if (match actual_from_filter with
      | some from_height => decide (cfg.actual_from < from_height)
      | none => false) then false
  else true

/-- Element-wise lookup that panics (`expect`) on the first missing entry:
`none` models the panic. -/
def mapOrPanic (f : α → Option β) : List α → Option (List β)
  | [] => some []
  | x :: xs =>
    match f x, mapOrPanic f xs with
    | some y, some ys => some (y :: ys)
    | _, _ => none

/-- `PublicConfigApi::get_all_proposes`: one snapshot; every hash of the
ordinal index is resolved in the propose table with `expect` (panic on a
missing entry), then filtered by `filter_cfg_predicate` over the
configuration decoded from the propose transaction's payload. -/
def get_all_proposes (bc : Blockchain) (n : Nat)
    (previous_cfg_hash_filter : Option Hash) (actual_from_filter : Option Height) :
    Option (List ApiResponseProposeHashInfo) × Nat :=
  let configuration_schema := (bc n).cfgSchema
  let index := configuration_schema.config_hash_by_ordinal
  let proposes :=
    (mapOrPanic (fun cfg_hash =>
        (configuration_schema.propose_data_by_config_hash cfg_hash).map
          (fun propose_data => (cfg_hash, propose_data))) index).map
      (fun resolved =>
        (resolved.filter (fun x =>
            filter_cfg_predicate (StoredConfiguration.from_bytes x.2.tx_propose.cfg)
              previous_cfg_hash_filter actual_from_filter)).map
          (fun x => ⟨x.1, x.2⟩))
  (proposes, n + 1)

/-- Counter-threaded `map` of `get_config_with_proofs` over a list of
configurations (each call takes two snapshots). -/
def mapWithProofs (bc : Blockchain) : List StoredConfiguration → Nat →
    List ApiResponseConfigHashInfo × Nat
  | [], n => ([], n)
  | c :: cs, n =>
    let r := get_config_with_proofs bc n c
    let rest := mapWithProofs bc cs r.2
    (r.1 :: rest.1, rest.2)

/-- `PublicConfigApi::get_all_committed`: one snapshot for the height index
and config table (`expect` on a dangling reference), then per surviving
record `get_config_with_proofs` takes two further snapshots. -/
def get_all_committed (bc : Blockchain) (n : Nat)
    (previous_cfg_hash_filter : Option Hash) (actual_from_filter : Option Height) :
    Option (List ApiResponseConfigHashInfo) × Nat :=
  let general_schema := (bc n).genSchema
  let index := general_schema.configs_actual_from
  match mapOrPanic (fun reference => general_schema.configs reference.cfg_hash) index with
  | none => (none, n + 1)
  | some resolved =>
    let filtered := resolved.filter (fun config =>
      filter_cfg_predicate config previous_cfg_hash_filter actual_from_filter)
    let r := mapWithProofs bc filtered (n + 1)
    (some r.1, r.2)

/-- The private API handle (`PrivateConfigApi`): the dispatch channel and the
node's keypair.  The channel either accepts a transaction or rejects it with
a structured error (`TransactionSend::send`). -/
structure PrivateConfigApi where
  channel : ConfigTx → Except ApiError Unit
  config : PublicKey × SecretKey

/-- `PrivateConfigApi::put_config_propose`: hashes the configuration, builds
the propose transaction from the UTF-8 decoding of the configuration's
canonical bytes — `unwrap`ped, so `none` models the panic on invalid UTF-8 —
and sends it on the channel, propagating the channel's error. -/
def put_config_propose (api : PrivateConfigApi) (cfg : StoredConfiguration) :
    Option (Except ApiError ApiResponseProposePost) :=
  let cfg_hash := cfg.hash
  match str_from_utf8 cfg.into_bytes with
  | none => none
  | some s =>
    let config_propose : TxConfigPropose := ⟨api.config.1, s⟩
    let tx_hash := config_propose.hash
    some (match api.channel (ConfigTx.propose config_propose) with
      | Except.error e => Except.error e
      | Except.ok _ => Except.ok ⟨tx_hash, cfg_hash⟩)

/-- `PrivateConfigApi::put_config_vote`: builds the vote transaction for the
target configuration hash and sends it, propagating the channel's error. -/
def put_config_vote (api : PrivateConfigApi) (cfg_hash : Hash) :
    Except ApiError ApiResponseVotePost :=
  let config_vote : TxConfigVote := ⟨api.config.1, cfg_hash⟩
  let tx_hash := config_vote.hash
  match api.channel (ConfigTx.vote config_vote) with
  | Except.error e => Except.error e
  | Except.ok _ => Except.ok ⟨tx_hash⟩

/-- Value of a query parameter (`params::Value`): a string, or any
non-string variant. -/
inductive ParamsValue where
  | str (s : String)
  | other
  deriving DecidableEq

/-- The parsed query-parameter map (`params::Map`), keyed by parameter
name. -/
structure ParamsMap where
  find : String → Option ParamsValue

/-- Numeric value of one hex digit, upper or lower case. -/
def hexVal (c : Char) : Option Nat :=
  let n := c.toNat
  if 48 ≤ n && n ≤ 57 then some (n - 48)
  else if 97 ≤ n && n ≤ 102 then some (n - 87)
  else if 65 ≤ n && n ≤ 70 then some (n - 55)
  else none

/-- Modelled from the spec: `Hash::from_hex` of the hashing collaborator —
a fixed-width (32-byte, 64-hex-digit) digest parsed from hexadecimal;
any non-hex character or wrong length is a decoding error. -/
def Hash.from_hex (s : String) : Option Hash :=
  if s.toList.length = 64 then
    (s.toList.mapM hexVal).map (fun ds => ds.foldl (fun acc d => acc * 16 + d) 0)
  else none

/-- Rust's `u64::from_str`: optional leading plus sign, one or more ASCII
digits, value within `u64` range. -/
def parse_u64 (s : String) : Option Nat :=
  let cs := match s.toList with
    | c :: rest => if c = '+' then rest else c :: rest
    | [] => []
  if cs = [] then none
  else if cs.all (fun c => 48 ≤ c.toNat && c.toNat ≤ 57) then
    let v := cs.foldl (fun acc c => acc * 10 + (c.toNat - 48)) 0
    if v < 2 ^ 64 then some v else none
  else none

/-- `PublicConfigApi::retrieve_params`: an omitted (or non-string) parameter
becomes `none`; a malformed `previous_cfg_hash` fails with `FromHex`; a
malformed `actual_from` fails with `IncorrectRequest`. -/
def retrieve_params (map : ParamsMap) : Except ApiError (Option Hash × Option Height) :=
  match (match map.find "previous_cfg_hash" with
    | some (ParamsValue.str hash_string) =>
      (match Hash.from_hex hash_string with
        | some h => Except.ok (some h)
        | none => Except.error ApiError.FromHex)
    | _ => Except.ok none : Except ApiError (Option Hash)) with
  | Except.error e => Except.error e
  | Except.ok previous_cfg_hash =>
    match (match map.find "actual_from" with
      | some (ParamsValue.str from_str) =>
        (match parse_u64 from_str with
          | some v => Except.ok (some v)
          | none => Except.error ApiError.IncorrectRequest)
      | _ => Except.ok none : Except ApiError (Option Height)) with
    | Except.error e => Except.error e
    | Except.ok actual_from => Except.ok (previous_cfg_hash, actual_from)

/-- The wired `GET /v1/configs/proposed` handler: parses the filters, failing
before any storage read, then lists the proposals. -/
def get_all_proposes_handler (bc : Blockchain) (n : Nat) (map : ParamsMap) :
    Except ApiError (Option (List ApiResponseProposeHashInfo)) :=
  match retrieve_params map with
  | Except.error e => Except.error e
  | Except.ok (previous_cfg_hash, actual_from) =>
    Except.ok (get_all_proposes bc n previous_cfg_hash actual_from).1

/-- The wired `GET /v1/configs/committed` handler: parses the filters,
failing before any storage read, then lists the committed configurations. -/
def get_all_committed_handler (bc : Blockchain) (n : Nat) (map : ParamsMap) :
    Except ApiError (Option (List ApiResponseConfigHashInfo)) :=
  match retrieve_params map with
  | Except.error e => Except.error e
  | Except.ok (previous_cfg_hash, actual_from) =>
    Except.ok (get_all_committed bc n previous_cfg_hash actual_from).1

/-- Evaluation of `get_actual_config` against one fixed snapshot: every
`snapshot()` call observes the same state `s`.  This is the behaviour the
spec's single-snapshot requirement describes. -/
def get_actual_config_single (s : Snapshot) : ApiResponseConfigHashInfo :=
  (get_actual_config (fun _ => s) 0).1

/-- Specification-side list for `get_all_proposes`: the ordinal index's
records whose embedded configuration passes the conjunctive filter, in index
order. -/
def proposes_passing (s : Snapshot) (previous_cfg_hash_filter : Option Hash)
    (actual_from_filter : Option Height) : List ApiResponseProposeHashInfo :=
  s.cfgSchema.config_hash_by_ordinal.filterMap (fun cfg_hash =>
    (s.cfgSchema.propose_data_by_config_hash cfg_hash).bind (fun pd =>
      if filter_cfg_predicate (StoredConfiguration.from_bytes pd.tx_propose.cfg)
          previous_cfg_hash_filter actual_from_filter
      then some ⟨cfg_hash, pd⟩ else none))

/-- Specification-side list for `get_all_committed`: the height index's
configurations passing the conjunctive filter, in index order. -/
def committed_passing (s : Snapshot) (previous_cfg_hash_filter : Option Hash)
    (actual_from_filter : Option Height) : List StoredConfiguration :=
  s.genSchema.configs_actual_from.filterMap (fun reference =>
    (s.genSchema.configs reference.cfg_hash).bind (fun c =>
      if filter_cfg_predicate c previous_cfg_hash_filter actual_from_filter
      then some c else none))

theorem mapOrPanic_eq_none_iff (f : α → Option β) (xs : List α) :
    mapOrPanic f xs = none ↔ ∃ x ∈ xs, f x = none := by
  induction xs with
  | nil => simp [mapOrPanic]
  | cons x xs ih =>
    simp only [mapOrPanic, List.mem_cons]
    cases hfx : f x <;> cases hr : mapOrPanic f xs <;> simp_all

theorem mapOrPanic_filter_map (f : α → Option β) (q : β → Bool) (mk : β → γ) :
    ∀ xs ys, mapOrPanic f xs = some ys →
      (ys.filter q).map mk =
        xs.filterMap (fun x => (f x).bind (fun y => if q y then some (mk y) else none)) := by
  intro xs
  induction xs with
  | nil => intro ys h; simp only [mapOrPanic] at h; cases h; rfl
  | cons x xs ih =>
    intro ys h
    simp only [mapOrPanic] at h
    cases hfx : f x with
    | none => rw [hfx] at h; cases h
    | some y =>
      rw [hfx] at h
      cases hr : mapOrPanic f xs with
      | none => rw [hr] at h; cases h
      | some ys' =>
        rw [hr] at h
        cases h
        simp only [List.filterMap_cons, hfx, Option.some_bind]
        cases hq : q y <;> simp [List.filter_cons, hq, ih ys' hr]

theorem mapWithProofs_map_config (bc : Blockchain) :
    ∀ cs n, (mapWithProofs bc cs n).1.map (fun r => r.config) = cs := by
  intro cs
  induction cs with
  | nil => intro n; rfl
  | cons c cs ih => intro n; simp [mapWithProofs, get_config_with_proofs, ih]

theorem filter_cfg_predicate_iff (cfg : StoredConfiguration) (p : Option Hash)
    (a : Option Height) :
    filter_cfg_predicate cfg p a = true ↔
      ((∀ x, p = some x → cfg.previous_cfg_hash = x) ∧
       (∀ hgt, a = some hgt → hgt ≤ cfg.actual_from)) := by
  unfold filter_cfg_predicate
  cases p <;> cases a <;> simp [Nat.not_lt]

theorem get_all_proposes_fst (bc : Blockchain) (n : Nat) (p : Option Hash)
    (a : Option Height) :
    (get_all_proposes bc n p a).1 =
      (mapOrPanic (fun cfg_hash =>
          ((bc n).cfgSchema.propose_data_by_config_hash cfg_hash).map
            (fun propose_data => (cfg_hash, propose_data)))
        (bc n).cfgSchema.config_hash_by_ordinal).map
        (fun resolved =>
          (resolved.filter (fun x =>
              filter_cfg_predicate (StoredConfiguration.from_bytes x.2.tx_propose.cfg) p a)).map
            (fun x => ⟨x.1, x.2⟩)) :=
  rfl

theorem get_all_committed_fst (bc : Blockchain) (m : Nat) (p : Option Hash)
    (a : Option Height) :
    (get_all_committed bc m p a).1 =
      (mapOrPanic (fun reference => (bc m).genSchema.configs reference.cfg_hash)
          (bc m).genSchema.configs_actual_from).map
        (fun resolved =>
          (mapWithProofs bc
            (resolved.filter (fun config => filter_cfg_predicate config p a)) (m + 1)).1) := by
  unfold get_all_committed
  cases h : mapOrPanic (fun reference => (bc m).genSchema.configs reference.cfg_hash)
      (bc m).genSchema.configs_actual_from <;> simp [h]

/-- C1: `filter_cfg_predicate` accepts a configuration exactly when every
supplied filter matches (`previous_cfg_hash` equality, `actual_from` at least
the bound), omitted filters passing everything; and, whenever they do not
panic, both listing operations return exactly the records of their index
whose configuration passes this conjunction. -/
theorem listings_return_exactly_passing_records (bc : Blockchain) (n m : Nat)
    (p : Option Hash) (a : Option Height) (cfg : StoredConfiguration)
    (l : List ApiResponseProposeHashInfo) (lc : List ApiResponseConfigHashInfo)
    (h1 : (get_all_proposes bc n p a).1 = some l)
    (h2 : (get_all_committed bc m p a).1 = some lc) :
    (filter_cfg_predicate cfg p a = true ↔
      ((∀ x, p = some x → cfg.previous_cfg_hash = x) ∧
       (∀ hgt, a = some hgt → hgt ≤ cfg.actual_from)))
    ∧ l = proposes_passing (bc n) p a
    ∧ lc.map (fun r => r.config) = committed_passing (bc m) p a := by
  refine ⟨filter_cfg_predicate_iff cfg p a, ?_, ?_⟩
  · rw [get_all_proposes_fst] at h1
    rw [Option.map_eq_some'] at h1
    obtain ⟨ys, hys, hl⟩ := h1
    subst hl
    rw [mapOrPanic_filter_map _ _ _ _ ys hys]
    unfold proposes_passing
    congr 1
    funext cfg_hash
    cases h : (bc n).cfgSchema.propose_data_by_config_hash cfg_hash <;> simp [h]
  · rw [get_all_committed_fst] at h2
    rw [Option.map_eq_some'] at h2
    obtain ⟨resolved, hres, hlc⟩ := h2
    subst hlc
    rw [mapWithProofs_map_config]
    have hfm := mapOrPanic_filter_map
      (fun reference => (bc m).genSchema.configs reference.cfg_hash)
      (fun config => filter_cfg_predicate config p a) id
      (bc m).genSchema.configs_actual_from resolved hres
    rw [List.map_id] at hfm
    rw [hfm]
    unfold committed_passing
    congr 1

/-- A proposed configuration passing the example filters below. -/
def cfgA1 : StoredConfiguration := ⟨5, 7, 0⟩

/-- A proposed configuration failing the example filters below. -/
def cfgB1 : StoredConfiguration := ⟨6, 3, 0⟩

/-- Propose-ledger entry embedding `cfgA1`. -/
def pdA1 : StorageValueConfigProposeData := ⟨⟨1, cfgA1.into_bytes⟩, 0, 0⟩

/-- Propose-ledger entry embedding `cfgB1`. -/
def pdB1 : StorageValueConfigProposeData := ⟨⟨2, cfgB1.into_bytes⟩, 0, 0⟩

/-- Example snapshot with two proposals and two committed configurations. -/
def snapC1 : Snapshot :=
  ⟨⟨fun h => if h = 10 then some pdA1 else if h = 20 then some pdB1 else none,
    fun _ => [], [10, 20]⟩,
   ⟨fun h => if h = 30 then some cfgA1 else if h = 40 then some cfgB1 else none,
    [⟨7, 30⟩, ⟨3, 40⟩], cfgA1, none⟩⟩

theorem listings_return_exactly_passing_records_witness :
    ((get_all_proposes (fun _ => snapC1) 0 (some 5) (some 5)).1 = some [⟨10, pdA1⟩])
    ∧ ((get_all_committed (fun _ => snapC1) 0 (some 5) (some 5)).1 =
        some [⟨cfgA1.hash, cfgA1, none, none⟩])
    ∧ ((filter_cfg_predicate cfgA1 (some 5) (some 5) = true ↔
          ((∀ x, (some 5 : Option Hash) = some x → cfgA1.previous_cfg_hash = x) ∧
           (∀ hgt, (some 5 : Option Height) = some hgt → hgt ≤ cfgA1.actual_from)))
        ∧ [(⟨10, pdA1⟩ : ApiResponseProposeHashInfo)] = proposes_passing snapC1 (some 5) (some 5)
        ∧ [(⟨cfgA1.hash, cfgA1, none, none⟩ : ApiResponseConfigHashInfo)].map (fun r => r.config) =
            committed_passing snapC1 (some 5) (some 5)) :=
  ⟨by decide, by decide,
    listings_return_exactly_passing_records (fun _ => snapC1) 0 0 (some 5) (some 5) cfgA1
      [⟨10, pdA1⟩] [⟨cfgA1.hash, cfgA1, none, none⟩] (by decide) (by decide)⟩

/-- C8: each listing operation panics — `none` in this model — exactly when
its index holds a reference with no matching by-hash entry: a proposal
ordinal-index hash with no propose-data record, or an activation-height
reference with no config record.  No error value is returned and no record is
skipped. -/
theorem listings_panic_iff_dangling_index (bc : Blockchain) (n m : Nat)
    (p : Option Hash) (a : Option Height) :
    ((get_all_proposes bc n p a).1 = none ↔
      ∃ cfg_hash ∈ (bc n).cfgSchema.config_hash_by_ordinal,
        (bc n).cfgSchema.propose_data_by_config_hash cfg_hash = none)
    ∧ ((get_all_committed bc m p a).1 = none ↔
      ∃ reference ∈ (bc m).genSchema.configs_actual_from,
        (bc m).genSchema.configs reference.cfg_hash = none) := by
  constructor
  · rw [get_all_proposes_fst, Option.map_eq_none', mapOrPanic_eq_none_iff]
    simp [Option.map_eq_none']
  · rw [get_all_committed_fst, Option.map_eq_none', mapOrPanic_eq_none_iff]

/-- Active configuration of the snapshot-mixing example. -/
def cfgC2 : StoredConfiguration := ⟨0, 0, 0⟩

/-- Propose-ledger entry for `cfgC2`. -/
def pdC2 : StorageValueConfigProposeData := ⟨⟨3, cfgC2.into_bytes⟩, 0, 0⟩

/-- Storage state before the propose transaction for `cfgC2` commits. -/
def snapNoPropose : Snapshot :=
  ⟨⟨fun _ => none, fun _ => [], []⟩, ⟨fun _ => none, [], cfgC2, none⟩⟩

/-- Storage state after the propose transaction for `cfgC2` commits. -/
def snapWithPropose : Snapshot :=
  ⟨⟨fun h => if h = cfgC2.hash then some pdC2 else none, fun _ => [], []⟩,
   ⟨fun _ => none, [], cfgC2, none⟩⟩

/-- A blockchain whose state changes between the second and third
`snapshot()` call of one `get_actual_config` query: the proposal commits in
between. -/
def mixedBlockchain : Blockchain :=
  fun i => if i ≤ 1 then snapNoPropose else snapWithPropose

/-- C2 fails on the code: `get_actual_config` takes three separate snapshots
(one for the active configuration, one for the proposal hash, one for the
vote tally).  Run against `mixedBlockchain` it reports no proposal hash yet a
present vote tally — an output that evaluation against any one fixed
snapshot (`get_actual_config_single`) can never produce, since there both
fields are driven by the same propose-table lookup. -/
theorem get_actual_config_mixes_snapshots :
    ((get_actual_config mixedBlockchain 0).1.propose = none
      ∧ (get_actual_config mixedBlockchain 0).1.votes = some [])
    ∧ ∀ s : Snapshot,
        (get_actual_config_single s).propose.isSome =
          (get_actual_config_single s).votes.isSome := by
  refine ⟨⟨by decide, by decide⟩, ?_⟩
  intro s
  simp only [get_actual_config_single, get_actual_config, get_config_with_proofs,
    get_votes_for_propose, ConfigurationSchemaS.get_propose]
  cases h : s.cfgSchema.propose_data_by_config_hash s.genSchema.actual_configuration.hash <;>
    simp [h]

/-- C3: the votes query returns the full per-validator slot array (empty
slots included) whenever a propose entry exists for the configuration hash,
and `none` — not an error and not a partial array — when no proposal
exists. -/
theorem votes_query_full_slot_array (bc : Blockchain) (n : Nat) (config_hash : Hash) :
    (∀ pd, (bc n).cfgSchema.propose_data_by_config_hash config_hash = some pd →
      (get_votes_for_propose bc n config_hash).1 =
        some ((bc n).cfgSchema.get_votes config_hash))
    ∧ ((bc n).cfgSchema.propose_data_by_config_hash config_hash = none →
      (get_votes_for_propose bc n config_hash).1 = none) := by
  constructor
  · intro pd h
    simp [get_votes_for_propose, h]
  · intro h
    simp [get_votes_for_propose, h]

/-- Propose-ledger entry of the C3 example. -/
def pdC3 : StorageValueConfigProposeData := ⟨⟨4, []⟩, 0, 0⟩

/-- Example snapshot whose proposal `5` has one filled and one empty vote
slot. -/
def snapC3 : Snapshot :=
  ⟨⟨fun h => if h = 5 then some pdC3 else none,
    fun h => if h = 5 then [some ⟨9, 5⟩, none] else [], []⟩,
   ⟨fun _ => none, [], ⟨0, 0, 0⟩, none⟩⟩

theorem votes_query_full_slot_array_witness :
    ((snapC3.cfgSchema.propose_data_by_config_hash 5 = some pdC3)
      ∧ (get_votes_for_propose (fun _ => snapC3) 0 5).1 = some [some ⟨9, 5⟩, none])
    ∧ ((snapC3.cfgSchema.propose_data_by_config_hash 6 = none)
      ∧ (get_votes_for_propose (fun _ => snapC3) 0 6).1 = none) :=
  ⟨⟨by decide, (votes_query_full_slot_array (fun _ => snapC3) 0 5).1 pdC3 (by decide)⟩,
   ⟨by decide, (votes_query_full_slot_array (fun _ => snapC3) 0 6).2 (by decide)⟩⟩

/-- C4: against an unchanging storage state, the active-configuration query
returns the active configuration together with the hash of its stored propose
transaction and the vote tally, both looked up under the active
configuration's content hash; both are `none` when no proposal is stored for
it (e.g. genesis). -/
theorem actual_config_triple (bc : Blockchain) (n : Nat) (s : Snapshot)
    (hconst : ∀ i, bc i = s) :
    (get_actual_config bc n).1 =
      ⟨s.genSchema.actual_configuration.hash,
       s.genSchema.actual_configuration,
       (s.cfgSchema.propose_data_by_config_hash s.genSchema.actual_configuration.hash).map
         (fun pd => pd.tx_propose.hash),
       (s.cfgSchema.propose_data_by_config_hash s.genSchema.actual_configuration.hash).map
         (fun _ => s.cfgSchema.get_votes s.genSchema.actual_configuration.hash)⟩
    ∧ (s.cfgSchema.propose_data_by_config_hash s.genSchema.actual_configuration.hash = none →
        (get_actual_config bc n).1.propose = none ∧ (get_actual_config bc n).1.votes = none) := by
  have hbc : bc = fun _ => s := funext hconst
  subst hbc
  constructor
  · cases hpd : s.cfgSchema.propose_data_by_config_hash s.genSchema.actual_configuration.hash <;>
      simp [get_actual_config, get_config_with_proofs, get_votes_for_propose,
        ConfigurationSchemaS.get_propose, hpd]
  · intro h
    simp [get_actual_config, get_config_with_proofs, get_votes_for_propose,
      ConfigurationSchemaS.get_propose, h]

/-- Genesis-like example snapshot: the active configuration has no stored
proposal. -/
def snapC4 : Snapshot :=
  ⟨⟨fun _ => none, fun _ => [], []⟩, ⟨fun _ => none, [], ⟨0, 0, 7⟩, none⟩⟩

theorem actual_config_triple_witness :
    ((get_actual_config (fun _ => snapC4) 0).1 =
      ⟨(⟨0, 0, 7⟩ : StoredConfiguration).hash, ⟨0, 0, 7⟩, none, none⟩)
    ∧ ((get_actual_config (fun _ => snapC4) 0).1.propose = none
      ∧ (get_actual_config (fun _ => snapC4) 0).1.votes = none) :=
  ⟨(actual_config_triple (fun _ => snapC4) 0 snapC4 (fun _ => rfl)).1,
   (actual_config_triple (fun _ => snapC4) 0 snapC4 (fun _ => rfl)).2 rfl⟩

/-- C5: against an unchanging storage state, the following-configuration
query returns `none` — not an error — when no future configuration change is
scheduled, and otherwise the scheduled following configuration with its
proposal hash and vote tally. -/
theorem following_config_query (bc : Blockchain) (n : Nat) (s : Snapshot)
    (hconst : ∀ i, bc i = s) :
    (s.genSchema.following_configuration = none → (get_following_config bc n).1 = none)
    ∧ (∀ f, s.genSchema.following_configuration = some f →
        (get_following_config bc n).1 = some
          ⟨f.hash, f,
           (s.cfgSchema.propose_data_by_config_hash f.hash).map (fun pd => pd.tx_propose.hash),
           (s.cfgSchema.propose_data_by_config_hash f.hash).map
             (fun _ => s.cfgSchema.get_votes f.hash)⟩) := by
  have hbc : bc = fun _ => s := funext hconst
  subst hbc
  constructor
  · intro h
    simp [get_following_config, h]
  · intro f h
    cases hpd : s.cfgSchema.propose_data_by_config_hash f.hash <;>
      simp [get_following_config, get_config_with_proofs, get_votes_for_propose,
        ConfigurationSchemaS.get_propose, h, hpd]

/-- Example snapshot with no scheduled following configuration. -/
def snapC5n : Snapshot :=
  ⟨⟨fun _ => none, fun _ => [], []⟩, ⟨fun _ => none, [], ⟨0, 0, 1⟩, none⟩⟩

/-- Example snapshot whose following configuration is scheduled. -/
def snapC5s : Snapshot :=
  ⟨⟨fun _ => none, fun _ => [], []⟩, ⟨fun _ => none, [], ⟨0, 0, 1⟩, some ⟨1, 9, 2⟩⟩⟩

theorem following_config_query_witness :
    ((get_following_config (fun _ => snapC5n) 0).1 = none)
    ∧ ((get_following_config (fun _ => snapC5s) 0).1 = some
        ⟨(⟨1, 9, 2⟩ : StoredConfiguration).hash, ⟨1, 9, 2⟩, none, none⟩) :=
  ⟨(following_config_query (fun _ => snapC5n) 0 snapC5n (fun _ => rfl)).1 rfl,
   (following_config_query (fun _ => snapC5s) 0 snapC5s (fun _ => rfl)).2 ⟨1, 9, 2⟩ rfl⟩

/-- C10: the by-hash lookup performs its two table reads independently and
never fails: its result is exactly the pair of independent lookups, and every
combination of present/absent committed config and proposal — in particular
`(none, none)` for an unknown hash — is realizable. -/
theorem config_by_hash_total (bc : Blockchain) (n : Nat) (h : Hash) :
    ((get_config_by_hash bc n h).1 =
      ⟨(bc n).genSchema.configs h, (bc n).cfgSchema.propose_data_by_config_hash h⟩)
    ∧ (∀ oc : Option StoredConfiguration, ∀ op : Option StorageValueConfigProposeData,
        ∃ bc' : Blockchain, (get_config_by_hash bc' 0 h).1 = ⟨oc, op⟩) := by
  refine ⟨rfl, ?_⟩
  intro oc op
  exact ⟨fun _ => ⟨⟨fun _ => op, fun _ => [], []⟩, ⟨fun _ => oc, [], ⟨0, 0, 0⟩, none⟩⟩, rfl⟩

/-- C6: with valid-UTF-8 canonical bytes, the propose submission returns the
propose transaction's hash together with the configuration's content hash
when the channel accepts, and the channel's structured error when it rejects;
the vote submission returns the vote transaction's hash alone, or the
channel's structured error. -/
theorem submission_results (api : PrivateConfigApi) (cfg : StoredConfiguration)
    (chash : Hash) (s : List Nat) (hs : str_from_utf8 cfg.into_bytes = some s) :
    put_config_propose api cfg = some
      ((api.channel (ConfigTx.propose ⟨api.config.1, s⟩)).map
        (fun _ => ⟨TxConfigPropose.hash ⟨api.config.1, s⟩, cfg.hash⟩))
    ∧ put_config_vote api chash =
      (api.channel (ConfigTx.vote ⟨api.config.1, chash⟩)).map
        (fun _ => ⟨TxConfigVote.hash ⟨api.config.1, chash⟩⟩) := by
  constructor
  · simp only [put_config_propose, hs]
    cases hch : api.channel (ConfigTx.propose ⟨api.config.1, s⟩) <;> simp [hch, Except.map]
  · simp only [put_config_vote]
    cases hch : api.channel (ConfigTx.vote ⟨api.config.1, chash⟩) <;> simp [hch, Except.map]

/-- Example private API handle: the channel accepts propose transactions and
rejects vote transactions. -/
def apiC6 : PrivateConfigApi :=
  ⟨fun tx => match tx with
    | ConfigTx.propose _ => Except.ok ()
    | ConfigTx.vote _ => Except.error ApiError.TransactionNotSent,
   (11, 12)⟩

theorem submission_results_witness :
    put_config_propose apiC6 ⟨0, 0, 0⟩ = some (Except.ok
      ⟨TxConfigPropose.hash ⟨11, (⟨0, 0, 0⟩ : StoredConfiguration).into_bytes⟩,
       (⟨0, 0, 0⟩ : StoredConfiguration).hash⟩)
    ∧ put_config_vote apiC6 5 = Except.error ApiError.TransactionNotSent :=
  ⟨(submission_results apiC6 ⟨0, 0, 0⟩ 5
      (⟨0, 0, 0⟩ : StoredConfiguration).into_bytes (by decide)).1,
   (submission_results apiC6 ⟨0, 0, 0⟩ 5
      (⟨0, 0, 0⟩ : StoredConfiguration).into_bytes (by decide)).2⟩

/-- C9: the propose submission unconditionally unwraps the UTF-8 decoding of
the configuration's canonical bytes: it panics (`none`) exactly when those
bytes are not valid UTF-8, and such configurations exist under the modelled
serialization, while valid-UTF-8 configurations always produce a (success or
structured-error) response. -/
theorem propose_panics_iff_not_utf8 (api : PrivateConfigApi) (cfg : StoredConfiguration) :
    (put_config_propose api cfg = none ↔ utf8Validate cfg.into_bytes = false)
    ∧ put_config_propose api ⟨0, 0, 255⟩ = none
    ∧ (put_config_propose api ⟨0, 0, 0⟩).isSome = true := by
  refine ⟨?_, ?_, ?_⟩
  · simp only [put_config_propose, str_from_utf8]
    cases h : utf8Validate cfg.into_bytes <;> simp [h]
  · have hv : utf8Validate (StoredConfiguration.into_bytes ⟨0, 0, 255⟩) = false := by decide
    simp [put_config_propose, str_from_utf8, hv]
  · have hv : utf8Validate (StoredConfiguration.into_bytes ⟨0, 0, 0⟩) = true := by decide
    simp [put_config_propose, str_from_utf8, hv]

/-- C7: omitted query parameters parse to unconstrained (`none`) filters; a
non-hexadecimal `previous_cfg_hash` fails with `FromHex` and a non-decimal
`actual_from` fails with `IncorrectRequest`; both valid yields both bounds;
and a parse failure makes the wired list handlers return the error whatever
the storage contains — before any record is read or filtered. -/
theorem retrieve_params_spec (map : ParamsMap) :
    (map.find "previous_cfg_hash" = none ∧ map.find "actual_from" = none →
      retrieve_params map = Except.ok (none, none))
    ∧ (∀ s1, map.find "previous_cfg_hash" = some (ParamsValue.str s1) →
        Hash.from_hex s1 = none → retrieve_params map = Except.error ApiError.FromHex)
    ∧ (∀ s2, map.find "previous_cfg_hash" = none →
        map.find "actual_from" = some (ParamsValue.str s2) → parse_u64 s2 = none →
        retrieve_params map = Except.error ApiError.IncorrectRequest)
    ∧ (∀ s1 h1 s2 v2, map.find "previous_cfg_hash" = some (ParamsValue.str s1) →
        Hash.from_hex s1 = some h1 →
        map.find "actual_from" = some (ParamsValue.str s2) → parse_u64 s2 = some v2 →
        retrieve_params map = Except.ok (some h1, some v2))
    ∧ (∀ e, retrieve_params map = Except.error e →
        ∀ bc bc' : Blockchain, ∀ n n' : Nat,
          get_all_proposes_handler bc n map = Except.error e
          ∧ get_all_committed_handler bc' n' map = Except.error e) := by
  refine ⟨?_, ?_, ?_, ?_, ?_⟩
  · intro h
    simp [retrieve_params, h.1, h.2]
  · intro s1 hf hx
    simp [retrieve_params, hf, hx]
  · intro s2 hp hf hx
    simp [retrieve_params, hp, hf, hx]
  · intro s1 h1 s2 v2 hf1 hx1 hf2 hx2
    simp [retrieve_params, hf1, hx1, hf2, hx2]
  · intro e he bc bc' n n'
    constructor
    · simp [get_all_proposes_handler, he]
    · simp [get_all_committed_handler, he]

/-- Request with neither filter parameter. -/
def mapEmptyC7 : ParamsMap := ⟨fun _ => none⟩

/-- Request whose `previous_cfg_hash` is not valid hexadecimal. -/
def mapBadHexC7 : ParamsMap :=
  ⟨fun k => if k = "previous_cfg_hash" then some (ParamsValue.str "zz") else none⟩

/-- Request whose `actual_from` is not a decimal integer. -/
def mapBadIntC7 : ParamsMap :=
  ⟨fun k => if k = "actual_from" then some (ParamsValue.str "abc") else none⟩

/-- Request with both filters well-formed. -/
def mapGoodC7 : ParamsMap :=
  ⟨fun k =>
    if k = "previous_cfg_hash" then
      some (ParamsValue.str
        "0000000000000000000000000000000000000000000000000000000000000000")
    else if k = "actual_from" then some (ParamsValue.str "42") else none⟩

/-- Empty example storage for the handler conjunct. -/
def snapC7 : Snapshot :=
  ⟨⟨fun _ => none, fun _ => [], []⟩, ⟨fun _ => none, [], ⟨0, 0, 0⟩, none⟩⟩

theorem retrieve_params_spec_witness :
    (retrieve_params mapEmptyC7 = Except.ok (none, none))
    ∧ (retrieve_params mapBadHexC7 = Except.error ApiError.FromHex)
    ∧ (retrieve_params mapBadIntC7 = Except.error ApiError.IncorrectRequest)
    ∧ (retrieve_params mapGoodC7 = Except.ok (some 0, some 42))
    ∧ (get_all_proposes_handler (fun _ => snapC7) 0 mapBadHexC7 = Except.error ApiError.FromHex
       ∧ get_all_committed_handler (fun _ => snapC7) 0 mapBadHexC7 =
          Except.error ApiError.FromHex) :=
  ⟨(retrieve_params_spec mapEmptyC7).1 ⟨rfl, rfl⟩,
   (retrieve_params_spec mapBadHexC7).2.1 "zz" (by decide) (by decide),
   (retrieve_params_spec mapBadIntC7).2.2.1 "abc" (by decide) (by decide) (by decide),
   (retrieve_params_spec mapGoodC7).2.2.2.1
     "0000000000000000000000000000000000000000000000000000000000000000" 0 "42" 42
     (by decide) (by decide) (by decide) (by decide),
   (retrieve_params_spec mapBadHexC7).2.2.2.2 ApiError.FromHex
     ((retrieve_params_spec mapBadHexC7).2.1 "zz" (by decide) (by decide))
     (fun _ => snapC7) (fun _ => snapC7) 0 0⟩
